import Mathlib

/-
Formal model of the group-signup registration service.

The definitions below are a shallow embedding of the server code:
the spreadsheet-backed store module (googleSheet.ts) and the HTTP
handlers (server.ts).  The spreadsheet is modelled as a list of raw
rows (lists of strings, the first row being the header); a student
record is five strings.  JavaScript string truthiness, the validation
regular expressions and the duplicate / capacity checks are translated
directly from the source.  The character classes of the regular
expressions are modelled on the characters the service actually
handles: the JavaScript whitespace class is Char.isWhitespace and
toLowerCase is per-character ASCII lowering.
-/

set_option autoImplicit false

/-- A student record: one spreadsheet row, as produced by getAllStudents. -/
structure Student where
  name : String
  email : String
  phone : String
  school : String
  group : String
  deriving DecidableEq

/-- Server configuration: GROUP_NAMES (split on commas and trimmed) and
MAX_STUDENTS_PER_GROUP, read from the environment at startup. -/
structure Config where
  groupNames : List String
  maxStudents : Nat
  deriving DecidableEq

/-- JavaScript truthiness of an optional string request field: an absent
field and the empty string are falsy, every other string is truthy. -/
def truthy : Option String → Bool
  | none => false
  | some s => !s.data.isEmpty

/-- Model of String.prototype.toLowerCase, per-character ASCII lowering. -/
def toLowerCase (s : String) : String :=
  String.mk (s.data.map Char.toLower)

/-- Model of phone.replace of the class of whitespace and dashes by the
empty string: drop every whitespace character and every dash. -/
def normalizePhone (p : String) : String :=
  String.mk (p.data.filter (fun c => !(c.isWhitespace || c == '-')))

/-- Splits a character list at the first occurrence of c: returns the
characters before it and the characters after it, or none when c does
not occur. -/
def splitAtFirst (c : Char) : List Char → Option (List Char × List Char)
  | [] => none
  | x :: xs =>
    if x == c then some ([], xs)
    else
      match splitAtFirst c xs with
      | some (pre, post) => some (x :: pre, post)
      | none => none

/-- A character allowed in the local part and domain of the email
pattern: not whitespace and not an at sign. -/
def emailChar (c : Char) : Bool :=
  !c.isWhitespace && !(c == '@')

/-- True when the list has a dot that is neither its first nor its last
character, i.e. the domain part matches one-or-more characters, a
literal dot, then one-or-more characters. -/
def hasInnerDot : List Char → Bool
  | [] => false
  | _ :: rest => rest.dropLast.contains '.'

/-- Model of the email regular expression of server.ts: an anchored
pattern of one-or-more non-whitespace non-at characters, an at sign,
then a domain of non-whitespace non-at characters containing an inner
dot.  A string matches exactly when it has a single at sign, a
non-empty all-emailChar local part and an all-emailChar domain with an
inner dot. -/
def emailValid (s : String) : Bool :=
  match splitAtFirst '@' s.data with
  | none => false
  | some (lp, dom) =>
    !lp.isEmpty && lp.all emailChar && dom.all emailChar && hasInnerDot dom

/-- Model of the phone check of server.ts: after normalizePhone, the
string must match the anchored pattern of 10 to 11 digits. -/
def phoneValid (p : String) : Bool :=
  let d := normalizePhone p
  d.data.all (fun c => c.isDigit) && (d.length == 10 || d.length == 11)

/-- Builds a Student from one raw spreadsheet row, mapping each missing
cell to the empty string, as the row mapping of getAllStudents does. -/
def mkRecord (row : List String) : Student :=
  { name := row.getD 0 ("")
    email := row.getD 1 ("")
    phone := row.getD 2 ("")
    school := row.getD 3 ("")
    group := row.getD 4 ("") }

/-- Model of GoogleSheetService.getAllStudents: fetch every row of the
sheet except the header row and map each to a Student. -/
def getAllStudents (sheet : List (List String)) : List Student :=
  (sheet.drop 1).map mkRecord

/-- The read operation behind GET api students: returns the student list
derived from the store and leaves the store unchanged. -/
def listStudents (sheet : List (List String)) : List Student × List (List String) :=
  (getAllStudents sheet, sheet)

/-- Looks a group name up in the derived count mapping, defaulting to
zero when the group is absent, as counts of group or-else zero does. -/
def lookupCount : List (String × Nat) → String → Nat
  | [], _ => 0
  | (k, v) :: rest, g => if k = g then v else lookupCount rest g

/-- Increments the counter of group g in the mapping, appending a fresh
entry of one when g is absent. -/
def bumpCount : List (String × Nat) → String → List (String × Nat)
  | [], g => [(g, 1)]
  | (k, v) :: rest, g =>
    if k = g then (k, v + 1) :: rest else (k, v) :: bumpCount rest g

/-- One iteration of the forEach of getGroupCounts: a student with a
truthy (non-empty) group name bumps that group's counter, any other
student is skipped. -/
def stepCount (counts : List (String × Nat)) (s : Student) : List (String × Nat) :=
  if s.group = "" then counts else bumpCount counts s.group

/-- Model of GoogleSheetService.getGroupCounts: fold the student list
into a per-group counter mapping; students with an empty group field
are skipped by the truthiness test of the source. -/
def getGroupCounts (students : List Student) : List (String × Nat) :=
  students.foldl stepCount []

/-- The number of student records whose group field equals g. -/
def countInGroup : List Student → String → Nat
  | [], _ => 0
  | s :: rest, g => (if s.group = g then 1 else 0) + countInGroup rest g

/-- The sum of all counters of a count mapping. -/
def sumCounts (counts : List (String × Nat)) : Nat :=
  (counts.map (fun kv => kv.2)).sum

/-- Model of GoogleSheetService.isGroupFull: the derived count of the
group, defaulting to zero, is at or above the configured capacity. -/
def isGroupFull (cfg : Config) (students : List Student) (groupName : String) : Bool :=
  decide (cfg.maxStudents ≤ lookupCount (getGroupCounts students) groupName)

/-- Model of GoogleSheetService.checkDuplicate: some field name when the
candidate collides with an existing record, none otherwise.  Emails are
compared case-insensitively over all records first; only when no email
matches are phones compared after normalizing both sides. -/
def checkDuplicate (students : List Student) (email phone : String) : Option String :=
  if students.any (fun s => toLowerCase s.email == toLowerCase email) then some ("email")
  else if students.any (fun s => normalizePhone s.phone == normalizePhone phone) then some ("phone")
  else none

/-- One entry of the GET api groups response. -/
structure GroupInfo where
  name : String
  count : Nat
  isFull : Bool
  maxStudents : Nat
  deriving DecidableEq

/-- Model of the GET api groups handler: one entry per configured group
name, in the configured order, each carrying the derived count
(defaulting to zero), the full flag and the uniform capacity. -/
def apiGroups (cfg : Config) (students : List Student) : List GroupInfo :=
  let groupCounts := getGroupCounts students
  cfg.groupNames.map fun groupName =>
    { name := groupName
      count := lookupCount groupCounts groupName
      isFull := decide (cfg.maxStudents ≤ lookupCount groupCounts groupName)
      maxStudents := cfg.maxStudents }

/-- A store operation performed while handling a registration: a full
read of the student rows, or the append of one new row. -/
inductive StoreOp where
  | read
  | append
  deriving DecidableEq

/-- The outcome of the POST api register handler, one constructor per
rejection branch of the source plus success. -/
inductive RegisterResult where
  | missingFields
  | missingRecaptcha
  | recaptchaFailed
  | invalidEmail
  | invalidPhone
  | invalidGroup
  | duplicate (field : String)
  | groupFull
  | success
  deriving DecidableEq

/-- The body of a POST api register request; every field may be absent. -/
structure RegisterRequest where
  name : Option String
  email : Option String
  phone : Option String
  school : Option String
  group : Option String
  recaptchaToken : Option String
  deriving DecidableEq

/-- Model of the POST api register handler.  recaptchaOk is the boolean
verdict of the external verification oracle for the submitted token.
The checks run in source order: field presence, token presence, token
verification, email format, phone format, group membership, duplicate
scan (one store read), capacity check (one store read), then the append.
Returns the outcome, the resulting student list and the trace of store
operations performed. -/
def register (cfg : Config) (recaptchaOk : Bool) (students : List Student)
    (r : RegisterRequest) : RegisterResult × List Student × List StoreOp :=
  if !truthy r.name || !truthy r.email || !truthy r.phone
      || !truthy r.school || !truthy r.group then
    (RegisterResult.missingFields, students, [])
  else if !truthy r.recaptchaToken then
    (RegisterResult.missingRecaptcha, students, [])
  else if !recaptchaOk then
    (RegisterResult.recaptchaFailed, students, [])
  else if !emailValid (r.email.getD ("")) then
    (RegisterResult.invalidEmail, students, [])
  else if !phoneValid (r.phone.getD ("")) then
    (RegisterResult.invalidPhone, students, [])
  else if !cfg.groupNames.contains (r.group.getD ("")) then
    (RegisterResult.invalidGroup, students, [])
  else
    match checkDuplicate students (r.email.getD ("")) (r.phone.getD ("")) with
    | some f => (RegisterResult.duplicate f, students, [StoreOp.read])
    | none =>
      if isGroupFull cfg students (r.group.getD ("")) then
        (RegisterResult.groupFull, students, [StoreOp.read, StoreOp.read])
      else
        (RegisterResult.success,
         students ++ [{ name := r.name.getD ("")
                        email := r.email.getD ("")
                        phone := r.phone.getD ("")
                        school := r.school.getD ("")
                        group := r.group.getD ("") }],
         [StoreOp.read, StoreOp.read, StoreOp.append])

/-- The lifecycle state left by the startup initialization task of
server.ts: whether the sheet was initialized, and whether the promise
of the initialization task ended rejected. -/
structure InitState where
  isSheetInitialized : Bool
  initPromiseRejected : Bool
  deriving DecidableEq

/-- Model of the startup initialization task: on success the initialized
flag is set and the task's promise fulfills; on failure the error is
caught inside the task, so outside production the process exits (none),
while in production the error is swallowed and the task's promise still
fulfills with the initialized flag left false. -/
def runInit (initOk production : Bool) : Option InitState :=
  if initOk then some { isSheetInitialized := true, initPromiseRejected := false }
  else if production then some { isSheetInitialized := false, initPromiseRejected := false }
  else none

/-- Model of the gate middleware once the initialization task has
settled: an initialized sheet lets the request proceed; otherwise the
middleware awaits the settled promise and only a rejected promise
produces the 503 unavailable response (false); a fulfilled promise lets
the request proceed to the normal handlers (true). -/
def initGate (st : InitState) : Bool :=
  if st.isSheetInitialized then true
  else if st.initPromiseRejected then false
  else true

/-- Configuration whose group list contains the empty name, as produced
by GROUP_NAMES with consecutive commas, with capacity one. -/
def cfgC1x : Config := { groupNames := [""], maxStudents := 1 }

/-- A store holding one record whose group field is empty. -/
def stuC1x : List Student :=
  [{ name := "N", email := "e@x.com", phone := "0123456789", school := "S", group := "" }]

/-- Two-seat configuration with a single group. -/
def cfgC1w : Config := { groupNames := ["Group A"], maxStudents := 2 }

/-- A store with one registrant in the single group: one seat left. -/
def stuC1w : List Student :=
  [{ name := "Alice", email := "alice@x.com", phone := "0123456789",
     school := "S1", group := "Group A" }]

/-- A fully valid submission for the last seat of the group. -/
def reqC1w : RegisterRequest :=
  { name := some ("Bob"), email := some ("bob@x.com"), phone := some ("0987654321"),
    school := some ("S2"), group := some ("Group A"), recaptchaToken := some ("tok") }

/-- Five-seat configuration with a single group. -/
def cfgC2w : Config := { groupNames := ["Group A"], maxStudents := 5 }

/-- A store with one registrant holding a mixed-case email and a dashed
phone number. -/
def stuC2w : List Student :=
  [{ name := "Alice", email := "A@b.com", phone := "0123-456-789",
     school := "S1", group := "Group A" }]

/-- A valid submission reusing the stored email with different casing
and a fresh phone number. -/
def reqC2w : RegisterRequest :=
  { name := some ("Bob"), email := some ("a@B.com"), phone := some ("0999888777"),
    school := some ("S2"), group := some ("Group A"), recaptchaToken := some ("tok") }

/-- A submission with the name field absent. -/
def reqC4w : RegisterRequest :=
  { name := none, email := some ("b@x.com"), phone := some ("0123456789"),
    school := some ("S"), group := some ("Group A"), recaptchaToken := some ("tok") }

/-- A submission whose email has no at sign. -/
def reqC5w : RegisterRequest :=
  { name := some ("Bob"), email := some ("bad-email"), phone := some ("0123456789"),
    school := some ("S"), group := some ("Group A"), recaptchaToken := some ("tok") }

/-- A submission whose phone strips to only five digits. -/
def reqC6w : RegisterRequest :=
  { name := some ("Bob"), email := some ("b@x.com"), phone := some ("123-45"),
    school := some ("S"), group := some ("Group A"), recaptchaToken := some ("tok") }

/-- Configuration whose group list contains the empty name, with the
default capacity. -/
def cfgC7x : Config := { groupNames := [""], maxStudents := 5 }

/-- A store holding one record whose group field is empty. -/
def stuC7x : List Student :=
  [{ name := "N", email := "e@x.com", phone := "0123456789", school := "S", group := "" }]

/-- One-seat configuration with two groups. -/
def cfgC7w : Config := { groupNames := ["Group A", "Group B"], maxStudents := 1 }

/-- A store with one registrant in the first group. -/
def stuC7w : List Student :=
  [{ name := "Alice", email := "alice@x.com", phone := "0123456789",
     school := "S1", group := "Group A" }]

/-- A store with one registrant holding a mixed-case email and a dashed
phone number. -/
def stuC9w : List Student :=
  [{ name := "Alice", email := "A@b.com", phone := "0123-456-789",
     school := "S1", group := "Group A" }]

/-- A header row of five column titles. -/
def headerC10w : List String := ["Name", "Email", "Phone", "School", "Group"]

/-- A raw row with only four cells: its group cell is missing. -/
def rowC10w : List String := ["N", "e@x.com", "0123456789", "S"]

/-- A raw row of a registrant of the configured group. -/
def rowC10full : List String := ["M", "m@x.com", "0987654321", "T", "Group A"]

/-- Truthiness of a present field is non-emptiness of the string. -/
theorem truthy_some_iff (s : String) : truthy (some s) = true ↔ s ≠ "" := by
  cases s with
  | mk data =>
    cases data <;> simp [truthy, String.ext_iff]

/-- Bumping a group's counter increments its looked-up count. -/
theorem lookupCount_bumpCount_self (counts : List (String × Nat)) (g : String) :
    lookupCount (bumpCount counts g) g = lookupCount counts g + 1 := by
  induction counts with
  | nil => simp [bumpCount, lookupCount]
  | cons kv rest ih =>
    obtain ⟨k, v⟩ := kv
    by_cases h : k = g
    · simp [bumpCount, lookupCount, h]
    · simp [bumpCount, lookupCount, h, ih]

/-- Bumping one group's counter leaves every other count unchanged. -/
theorem lookupCount_bumpCount_ne (counts : List (String × Nat)) (g g' : String)
    (h : g' ≠ g) : lookupCount (bumpCount counts g) g' = lookupCount counts g' := by
  induction counts with
  | nil => simp [bumpCount, lookupCount, Ne.symm h]
  | cons kv rest ih =>
    obtain ⟨k, v⟩ := kv
    by_cases hk : k = g
    · subst hk
      simp [bumpCount, lookupCount, Ne.symm h]
    · simp [bumpCount, lookupCount, hk, ih]

/-- The count fold adds, to any initial mapping, the number of records of
each non-empty group; the empty group is never touched. -/
theorem lookupCount_foldl_stepCount (students : List Student)
    (counts : List (String × Nat)) (g : String) :
    lookupCount (students.foldl stepCount counts) g =
      lookupCount counts g + (if g = "" then 0 else countInGroup students g) := by
  induction students generalizing counts with
  | nil => simp [countInGroup]
  | cons s rest ih =>
    rw [List.foldl_cons, ih]
    by_cases hs : s.group = ""
    · by_cases hg : g = ""
      · simp [stepCount, hs, hg]
      · have h1 : ¬("" = g) := fun hh => hg hh.symm
        simp [stepCount, hs, hg, countInGroup, h1]
    · by_cases hg : g = ""
      · have h1 : ("" : String) ≠ s.group := fun hh => hs hh.symm
        simp [stepCount, hs, hg, lookupCount_bumpCount_ne counts s.group ("") h1]
      · by_cases hsg : s.group = g
        · subst hsg
          simp [stepCount, hs, lookupCount_bumpCount_self, countInGroup]
          omega
        · have h1 : g ≠ s.group := fun hh => hsg hh.symm
          simp [stepCount, hs, hg, lookupCount_bumpCount_ne counts s.group g h1,
            countInGroup, hsg]

/-- Characterization of the derived count mapping: looking up a
non-empty group yields the number of records in that group; looking up
the empty group always yields zero. -/
theorem lookupCount_getGroupCounts (students : List Student) (g : String) :
    lookupCount (getGroupCounts students) g =
      if g = "" then 0 else countInGroup students g := by
  have h := lookupCount_foldl_stepCount students [] g
  simpa [getGroupCounts, lookupCount] using h

/-- Appending one record adds one to its own group's record count. -/
theorem countInGroup_append (students : List Student) (s : Student) (g : String) :
    countInGroup (students ++ [s]) g =
      countInGroup students g + (if s.group = g then 1 else 0) := by
  induction students with
  | nil => simp [countInGroup]
  | cons t rest ih => simp [countInGroup, ih]; omega

/-- The boolean email scan of checkDuplicate succeeds exactly when some
record's email equals the candidate's case-insensitively. -/
theorem any_email_iff (students : List Student) (email : String) :
    students.any (fun s => toLowerCase s.email == toLowerCase email) = true ↔
      ∃ s, s ∈ students ∧ toLowerCase s.email = toLowerCase email := by
  simp [List.any_eq_true]

/-- The boolean phone scan of checkDuplicate succeeds exactly when some
record's phone equals the candidate's after normalizing both. -/
theorem any_phone_iff (students : List Student) (phone : String) :
    students.any (fun s => normalizePhone s.phone == normalizePhone phone) = true ↔
      ∃ s, s ∈ students ∧ normalizePhone s.phone = normalizePhone phone := by
  simp [List.any_eq_true]

/-- checkDuplicate reports the email field whenever the email scan hits,
regardless of the phone scan. -/
theorem checkDuplicate_email (students : List Student) (email phone : String)
    (h1 : students.any (fun s => toLowerCase s.email == toLowerCase email) = true) :
    checkDuplicate students email phone = some ("email") := by
  unfold checkDuplicate
  rw [if_pos h1]

/-- checkDuplicate reports the phone field when the email scan misses
and the phone scan hits. -/
theorem checkDuplicate_phone (students : List Student) (email phone : String)
    (h1 : students.any (fun s => toLowerCase s.email == toLowerCase email) = false)
    (h2 : students.any (fun s => normalizePhone s.phone == normalizePhone phone) = true) :
    checkDuplicate students email phone = some ("phone") := by
  unfold checkDuplicate
  rw [if_neg (by simp [h1]), if_pos h2]

/-- checkDuplicate reports no duplicate when both scans miss. -/
theorem checkDuplicate_none (students : List Student) (email phone : String)
    (h1 : students.any (fun s => toLowerCase s.email == toLowerCase email) = false)
    (h2 : students.any (fun s => normalizePhone s.phone == normalizePhone phone) = false) :
    checkDuplicate students email phone = none := by
  unfold checkDuplicate
  rw [if_neg (by simp [h1]), if_neg (by simp [h2])]

/-- After every validation step up to group membership passes, register
reduces to the duplicate scan, then the capacity check, then the append,
with the corresponding store traces. -/
theorem register_after_validation (cfg : Config) (recaptchaOk : Bool)
    (students : List Student) (r : RegisterRequest)
    (hn : truthy r.name = true) (he : truthy r.email = true)
    (hp : truthy r.phone = true) (hs : truthy r.school = true)
    (hg : truthy r.group = true) (ht : truthy r.recaptchaToken = true)
    (hrc : recaptchaOk = true)
    (hev : emailValid (r.email.getD ("")) = true)
    (hpv : phoneValid (r.phone.getD ("")) = true)
    (hgn : cfg.groupNames.contains (r.group.getD ("")) = true) :
    register cfg recaptchaOk students r =
      match checkDuplicate students (r.email.getD ("")) (r.phone.getD ("")) with
      | some f => (RegisterResult.duplicate f, students, [StoreOp.read])
      | none =>
        if isGroupFull cfg students (r.group.getD ("")) then
          (RegisterResult.groupFull, students, [StoreOp.read, StoreOp.read])
        else
          (RegisterResult.success,
           students ++ [{ name := r.name.getD (""), email := r.email.getD (""),
                          phone := r.phone.getD (""), school := r.school.getD (""),
                          group := r.group.getD ("") }],
           [StoreOp.read, StoreOp.read, StoreOp.append]) := by
  unfold register
  rw [hn, he, hp, hs, hg, ht, hrc, hev, hpv, hgn]
  simp

example : emailValid ("a@b.c") = true := by decide
example : emailValid ("a@bc") = false := by decide
example : emailValid ("a@.c") = false := by decide
example : emailValid ("ab.c") = false := by decide
example : emailValid ("a@b.") = false := by decide
example : emailValid ("a b@b.c") = false := by decide
example : emailValid ("a@b@c.d") = false := by decide
example : phoneValid ("0123-456-789") = true := by decide
example : phoneValid ("0123456789") = true := by decide
example : phoneValid ("012345678") = false := by decide
example : phoneValid ("0123a56789") = false := by decide
example : toLowerCase ("A@b.com") = toLowerCase ("a@B.com") := by decide

/-- C3: the claim says that when initialization has failed in the
production context, every subsequent request receives the 503
unavailable failure shape.  The code contradicts this intent: the
startup task catches its own error, so in production its promise still
fulfills with the initialized flag left false; the gate middleware's
catch branch (the only producer of the 503 response) is then
unreachable and requests proceed to the normal handlers.  Evaluated at
the failing input (initialization fails, production mode): the settled
state has a fulfilled promise and the gate lets requests through.  In
the non-production context the process exits, as the spec says. -/
theorem C3_prod_init_failure_not_unavailable :
    runInit false true =
      some { isSheetInitialized := false, initPromiseRejected := false }
    ∧ initGate { isSheetInitialized := false, initPromiseRejected := false } = true
    ∧ runInit false false = none := by
  decide

/-- C4: a submission with any of name, email, phone, school or group
absent is rejected with the missing-fields reason, the student list is
unchanged and no store operation is performed. -/
theorem C4_missing_field_atomicity (cfg : Config) (recaptchaOk : Bool)
    (students : List Student) (r : RegisterRequest)
    (h : r.name = none ∨ r.email = none ∨ r.phone = none
      ∨ r.school = none ∨ r.group = none) :
    register cfg recaptchaOk students r = (RegisterResult.missingFields, students, []) := by
  unfold register
  rcases h with h | h | h | h | h <;> rw [h] <;> simp [truthy]

/-- C4 witness: the missing-name submission is rejected with the
missing-fields reason and the empty store stays empty. -/
theorem C4_missing_field_atomicity_witness :
    register cfgC2w true [] reqC4w = (RegisterResult.missingFields, [], []) :=
  C4_missing_field_atomicity cfgC2w true [] reqC4w (Or.inl rfl)

/-- C8: read idempotence.  A listStudents call leaves the store
unchanged, a second call returns the identical sequence, and the
returned sequence is a function of the store contents alone: the rows
after the header, each mapped to a record with missing cells defaulted
to empty text. -/
theorem C8_read_idempotence (sheet : List (List String)) :
    (listStudents ((listStudents sheet).2)).1 = (listStudents sheet).1
    ∧ (listStudents sheet).2 = sheet
    ∧ (listStudents sheet).1 = (sheet.drop 1).map mkRecord :=
  ⟨rfl, rfl, rfl⟩

/-- C9: duplicate-field precedence.  Whenever some existing record
matches the candidate's email case-insensitively, checkDuplicate
reports the email field, whatever the phone comparison would say: the
email scan runs over all records before any phone comparison. -/
theorem C9_duplicate_reports_email_first (students : List Student) (email phone : String)
    (h : ∃ s, s ∈ students ∧ toLowerCase s.email = toLowerCase email) :
    checkDuplicate students email phone = some ("email") :=
  checkDuplicate_email students email phone ((any_email_iff students email).mpr h)

/-- With an invalid email the handler exits in one of the four checks
that precede any store operation: the trace is empty, the student list
is untouched and the outcome is not success. -/
theorem register_invalidEmail_early (cfg : Config) (recaptchaOk : Bool)
    (students : List Student) (r : RegisterRequest)
    (hinv : emailValid (r.email.getD ("")) = false) :
    (register cfg recaptchaOk students r).2.2 = []
    ∧ (register cfg recaptchaOk students r).2.1 = students
    ∧ (register cfg recaptchaOk students r).1 ≠ RegisterResult.success := by
  unfold register
  repeat' split <;> try simp_all

/-- When the submitted phone passes the format check, no branch of the
handler yields the invalid-phone outcome. -/
theorem register_not_invalidPhone (cfg : Config) (recaptchaOk : Bool)
    (students : List Student) (r : RegisterRequest)
    (hpv : phoneValid (r.phone.getD ("")) = true) :
    (register cfg recaptchaOk students r).1 ≠ RegisterResult.invalidPhone := by
  unfold register
  repeat' split <;> try simp_all

/-- C5: email-format gate.  A submission whose email fails the format
pattern performs no store operation and never succeeds; when every
earlier check passes (all fields and the token present, the
verification oracle accepting), the reported reason is precisely
invalid email. -/
theorem C5_email_gate (cfg : Config) (recaptchaOk : Bool)
    (students : List Student) (r : RegisterRequest) (e : String)
    (hsome : r.email = some e) (hinv : emailValid e = false) :
    (register cfg recaptchaOk students r).2.2 = []
    ∧ (register cfg recaptchaOk students r).2.1 = students
    ∧ (register cfg recaptchaOk students r).1 ≠ RegisterResult.success
    ∧ (truthy r.name = true → truthy r.email = true → truthy r.phone = true →
       truthy r.school = true → truthy r.group = true →
       truthy r.recaptchaToken = true → recaptchaOk = true →
       (register cfg recaptchaOk students r).1 = RegisterResult.invalidEmail) := by
  have hinv' : emailValid (r.email.getD ("")) = false := by
    rw [hsome]; simpa using hinv
  obtain ⟨h1, h2, h3⟩ := register_invalidEmail_early cfg recaptchaOk students r hinv'
  refine ⟨h1, h2, h3, ?_⟩
  intro hn he hp hs hg ht hrc
  unfold register
  simp [hn, he, hp, hs, hg, ht, hrc, hinv']

/-- C5 witness: the submission with email lacking an at sign, all other
checks passing, is rejected with the invalid-email reason, without any
store operation. -/
theorem C5_email_gate_witness :
    (register cfgC2w true [] reqC5w).2.2 = []
    ∧ (register cfgC2w true [] reqC5w).2.1 = []
    ∧ (register cfgC2w true [] reqC5w).1 ≠ RegisterResult.success
    ∧ (truthy reqC5w.name = true → truthy reqC5w.email = true →
       truthy reqC5w.phone = true → truthy reqC5w.school = true →
       truthy reqC5w.group = true → truthy reqC5w.recaptchaToken = true →
       true = true → (register cfgC2w true [] reqC5w).1 = RegisterResult.invalidEmail) :=
  C5_email_gate cfgC2w true [] reqC5w ("bad-email") (by decide) (by decide)

/-- C6: phone-format gate.  Under every earlier check passing, the
handler reports invalid phone exactly when the submitted phone, with
spaces and dashes removed, is not a digit string of length 10 or 11;
and a failing phone is rejected with the student list unchanged and no
store operation. -/
theorem C6_phone_gate (cfg : Config) (recaptchaOk : Bool)
    (students : List Student) (r : RegisterRequest) (p : String)
    (hsome : r.phone = some p)
    (hn : truthy r.name = true) (he : truthy r.email = true)
    (hph : truthy r.phone = true) (hs : truthy r.school = true)
    (hg : truthy r.group = true) (ht : truthy r.recaptchaToken = true)
    (hrc : recaptchaOk = true)
    (hev : emailValid (r.email.getD ("")) = true) :
    ((register cfg recaptchaOk students r).1 = RegisterResult.invalidPhone
      ↔ phoneValid p = false)
    ∧ (phoneValid p = false →
        register cfg recaptchaOk students r = (RegisterResult.invalidPhone, students, [])) := by
  have hback : phoneValid p = false →
      register cfg recaptchaOk students r = (RegisterResult.invalidPhone, students, []) := by
    intro hpv
    have hph' : truthy (some p) = true := hsome ▸ hph
    unfold register
    simp [hsome, hn, he, hph', hs, hg, ht, hrc, hev, hpv]
  refine ⟨⟨?_, fun hpv => by rw [hback hpv]⟩, hback⟩
  intro hres
  by_cases hpv : phoneValid p = true
  · exfalso
    apply register_not_invalidPhone cfg recaptchaOk students r ?_ hres
    rw [hsome]
    simpa using hpv
  · simpa using hpv

/-- C6 witness: the submission whose phone strips to five digits, all
earlier checks passing, is rejected with the invalid-phone reason. -/
theorem C6_phone_gate_witness :
    ((register cfgC2w true [] reqC6w).1 = RegisterResult.invalidPhone
      ↔ phoneValid ("123-45") = false)
    ∧ (phoneValid ("123-45") = false →
        register cfgC2w true [] reqC6w = (RegisterResult.invalidPhone, [], [])) :=
  C6_phone_gate cfgC2w true [] reqC6w ("123-45") (by decide) (by decide) (by decide)
    (by decide) (by decide) (by decide) (by decide) (by decide) (by decide)

/-- C1 counterexample: the claim quantifies over every configured group
and every store state.  With the empty name configured (reachable from
GROUP_NAMES containing consecutive commas) and capacity one, a store
holding one record whose group field is empty has a record count at
capacity for that configured group, yet isGroupFull answers false,
because getGroupCounts skips records with a falsy group name: the
claimed equivalence fails at this input. -/
theorem C1_capacity_boundary_counterexample :
    ("") ∈ cfgC1x.groupNames
    ∧ cfgC1x.maxStudents ≤ countInGroup stuC1x ("")
    ∧ isGroupFull cfgC1x stuC1x ("") = false := by
  decide

/-- C1 (amended to configured groups with a non-empty name): isGroupFull
answers true exactly when the group's record count is at or above the
configured capacity; a submission passing all earlier checks for such a
group is rejected as full, with no append, when the count is at or
above capacity; and when the count is exactly capacity minus one it
succeeds, appending the one record that brings the group's count to
exactly capacity. -/
theorem C1_capacity_boundary (cfg : Config) (recaptchaOk : Bool)
    (students : List Student) (r : RegisterRequest) (g : String)
    (hne : g ≠ "") (hr : r.group = some g)
    (hn : truthy r.name = true) (he : truthy r.email = true)
    (hp : truthy r.phone = true) (hs : truthy r.school = true)
    (ht : truthy r.recaptchaToken = true) (hrc : recaptchaOk = true)
    (hev : emailValid (r.email.getD ("")) = true)
    (hpv : phoneValid (r.phone.getD ("")) = true)
    (hgn : g ∈ cfg.groupNames)
    (hnodup : checkDuplicate students (r.email.getD ("")) (r.phone.getD ("")) = none) :
    (isGroupFull cfg students g = true ↔ cfg.maxStudents ≤ countInGroup students g)
    ∧ (cfg.maxStudents ≤ countInGroup students g →
        register cfg recaptchaOk students r =
          (RegisterResult.groupFull, students, [StoreOp.read, StoreOp.read]))
    ∧ (countInGroup students g + 1 = cfg.maxStudents →
        register cfg recaptchaOk students r =
          (RegisterResult.success,
           students ++ [{ name := r.name.getD (""), email := r.email.getD (""),
                          phone := r.phone.getD (""), school := r.school.getD (""),
                          group := g }],
           [StoreOp.read, StoreOp.read, StoreOp.append])
        ∧ countInGroup (students ++
            [{ name := r.name.getD (""), email := r.email.getD (""),
               phone := r.phone.getD (""), school := r.school.getD (""),
               group := g }]) g = cfg.maxStudents) := by
  have hg : truthy r.group = true := by
    rw [hr]
    exact (truthy_some_iff g).mpr hne
  have hgn' : cfg.groupNames.contains (r.group.getD ("")) = true := by
    rw [hr]
    simpa using hgn
  have hfull : isGroupFull cfg students g = true ↔
      cfg.maxStudents ≤ countInGroup students g := by
    unfold isGroupFull
    rw [lookupCount_getGroupCounts]
    simp [hne]
  have hred := register_after_validation cfg recaptchaOk students r hn he hp hs hg ht hrc hev hpv hgn'
  rw [hnodup] at hred
  have hgetD : r.group.getD ("") = g := by rw [hr]; rfl
  rw [hgetD] at hred
  have hred2 : register cfg recaptchaOk students r =
      (if isGroupFull cfg students g then
        (RegisterResult.groupFull, students, [StoreOp.read, StoreOp.read])
      else
        (RegisterResult.success,
         students ++ [{ name := r.name.getD (""), email := r.email.getD (""),
                        phone := r.phone.getD (""), school := r.school.getD (""),
                        group := g }],
         [StoreOp.read, StoreOp.read, StoreOp.append])) := hred
  refine ⟨hfull, ?_, ?_⟩
  · intro hcount
    rw [hred2, if_pos (hfull.mpr hcount)]
  · intro hcount
    have hnf : ¬ (isGroupFull cfg students g = true) := by
      rw [hfull]
      omega
    constructor
    · rw [hred2, if_neg hnf]
    · rw [countInGroup_append]
      simp
      omega

/-- C1 witness: one seat left in a two-seat group, a fully valid fresh
submission: registration succeeds, appends the record and brings the
group's count to exactly the capacity. -/
theorem C1_capacity_boundary_witness :
    (register cfgC1w true stuC1w reqC1w =
      (RegisterResult.success,
       stuC1w ++ [{ name := reqC1w.name.getD (""), email := reqC1w.email.getD (""),
                    phone := reqC1w.phone.getD (""), school := reqC1w.school.getD (""),
                    group := "Group A" }],
       [StoreOp.read, StoreOp.read, StoreOp.append])
    ∧ countInGroup (stuC1w ++
        [{ name := reqC1w.name.getD (""), email := reqC1w.email.getD (""),
           phone := reqC1w.phone.getD (""), school := reqC1w.school.getD (""),
           group := "Group A" }]) ("Group A") = cfgC1w.maxStudents) :=
  (C1_capacity_boundary cfgC1w true stuC1w reqC1w ("Group A") (by decide) rfl
    (by decide) (by decide) (by decide) (by decide) (by decide) rfl
    (by decide) (by decide) (by decide) (by decide)).2.2 (by decide)

/-- C2: duplicate rejection semantics.  For a candidate passing every
earlier check, the handler rejects as an email duplicate exactly when
some existing record's email equals the candidate's case-insensitively;
as a phone duplicate exactly when no email matches and some record's
phone equals the candidate's after stripping spaces and dashes from
both; it rejects as some duplicate exactly when either comparison hits;
and a duplicate rejection appends nothing. -/
theorem C2_duplicate_semantics (cfg : Config) (recaptchaOk : Bool)
    (students : List Student) (r : RegisterRequest)
    (hn : truthy r.name = true) (he : truthy r.email = true)
    (hp : truthy r.phone = true) (hs : truthy r.school = true)
    (hg : truthy r.group = true) (ht : truthy r.recaptchaToken = true)
    (hrc : recaptchaOk = true)
    (hev : emailValid (r.email.getD ("")) = true)
    (hpv : phoneValid (r.phone.getD ("")) = true)
    (hgn : cfg.groupNames.contains (r.group.getD ("")) = true) :
    ((register cfg recaptchaOk students r).1 = RegisterResult.duplicate ("email")
      ↔ ∃ s, s ∈ students ∧ toLowerCase s.email = toLowerCase (r.email.getD ("")))
    ∧ ((register cfg recaptchaOk students r).1 = RegisterResult.duplicate ("phone")
      ↔ ((¬ ∃ s, s ∈ students ∧ toLowerCase s.email = toLowerCase (r.email.getD ("")))
         ∧ ∃ s, s ∈ students ∧ normalizePhone s.phone = normalizePhone (r.phone.getD (""))))
    ∧ ((∃ f, (register cfg recaptchaOk students r).1 = RegisterResult.duplicate f)
      ↔ ∃ s, s ∈ students ∧
          (toLowerCase s.email = toLowerCase (r.email.getD (""))
           ∨ normalizePhone s.phone = normalizePhone (r.phone.getD (""))))
    ∧ ((∃ f, (register cfg recaptchaOk students r).1 = RegisterResult.duplicate f) →
        (register cfg recaptchaOk students r).2.1 = students) := by
  have hred := register_after_validation cfg recaptchaOk students r hn he hp hs hg ht hrc hev hpv hgn
  by_cases h1 : students.any
      (fun s => toLowerCase s.email == toLowerCase (r.email.getD (""))) = true
  · have hex := (any_email_iff students (r.email.getD (""))).mp h1
    have hred2 : register cfg recaptchaOk students r =
        (RegisterResult.duplicate ("email"), students, [StoreOp.read]) := by
      rw [hred, checkDuplicate_email students (r.email.getD (""))
        (r.phone.getD ("")) h1]
    rw [hred2]
    refine ⟨iff_of_true rfl hex, iff_of_false (by simp) (fun hx => hx.1 hex), ?_, fun _ => rfl⟩
    refine iff_of_true ⟨("email"), rfl⟩ ?_
    obtain ⟨s, hm, hq⟩ := hex
    exact ⟨s, hm, Or.inl hq⟩
  · have h1f : students.any
        (fun s => toLowerCase s.email == toLowerCase (r.email.getD (""))) = false := by
      simpa using h1
    have hnexe : ¬ ∃ s, s ∈ students ∧
        toLowerCase s.email = toLowerCase (r.email.getD ("")) := by
      rw [← any_email_iff]
      simp [h1f]
    by_cases h2 : students.any
        (fun s => normalizePhone s.phone == normalizePhone (r.phone.getD (""))) = true
    · have hexp := (any_phone_iff students (r.phone.getD (""))).mp h2
      have hred2 : register cfg recaptchaOk students r =
          (RegisterResult.duplicate ("phone"), students, [StoreOp.read]) := by
        rw [hred, checkDuplicate_phone students (r.email.getD (""))
          (r.phone.getD ("")) h1f h2]
      rw [hred2]
      refine ⟨iff_of_false (by simp) hnexe, iff_of_true rfl ⟨hnexe, hexp⟩, ?_, fun _ => rfl⟩
      refine iff_of_true ⟨("phone"), rfl⟩ ?_
      obtain ⟨s, hm, hq⟩ := hexp
      exact ⟨s, hm, Or.inr hq⟩
    · have h2f : students.any
          (fun s => normalizePhone s.phone == normalizePhone (r.phone.getD (""))) = false := by
        simpa using h2
      have hnexp : ¬ ∃ s, s ∈ students ∧
          normalizePhone s.phone = normalizePhone (r.phone.getD ("")) := by
        rw [← any_phone_iff]
        simp [h2f]
      rw [checkDuplicate_none students (r.email.getD ("")) (r.phone.getD ("")) h1f h2f] at hred
      have hnd : ∀ f, (register cfg recaptchaOk students r).1 ≠ RegisterResult.duplicate f := by
        intro f
        rw [hred]
        split
        · simp_all
        · split <;> simp
      refine ⟨iff_of_false (hnd ("email")) hnexe,
        iff_of_false (hnd ("phone")) (fun hx => hnexp hx.2), ?_, ?_⟩
      · refine iff_of_false (fun hx => ?_) (fun hx => ?_)
        · obtain ⟨f, hff⟩ := hx
          exact hnd f hff
        · obtain ⟨s, hm, hq⟩ := hx
          exact hq.elim (fun hh => hnexe ⟨s, hm, hh⟩) (fun hh => hnexp ⟨s, hm, hh⟩)
      · intro hx
        obtain ⟨f, hff⟩ := hx
        exact absurd hff (hnd f)

/-- C2 witness: against a store holding the email in different casing,
the otherwise valid candidate is rejected as an email duplicate. -/
theorem C2_duplicate_semantics_witness :
    (register cfgC2w true stuC2w reqC2w).1 = RegisterResult.duplicate ("email") :=
  (C2_duplicate_semantics cfgC2w true stuC2w reqC2w (by decide) (by decide) (by decide)
    (by decide) (by decide) (by decide) rfl (by decide) (by decide) (by decide)).1.mpr
    ⟨{ name := "Alice", email := "A@b.com", phone := "0123-456-789",
       school := "S1", group := "Group A" }, by decide, by decide⟩

/-- Mapping a builder over names and then projecting the name field back
out returns the original name list. -/
theorem map_name_of_build (f : String → GroupInfo) (hf : ∀ g, (f g).name = g)
    (names : List String) : (names.map f).map (fun gi => gi.name) = names := by
  induction names with
  | nil => rfl
  | cons a l ih => simp [hf, ih]

/-- C7 counterexample: the claim says each entry's count equals the
number of student records in that group.  With the empty name
configured and one record whose group field is empty, the endpoint's
single entry reports count zero while the store holds one record of
that group: the rows are absent from the derived mapping, and the
default of zero is not the number of records. -/
theorem C7_groups_endpoint_counterexample :
    apiGroups cfgC7x stuC7x =
      [{ name := "", count := 0, isFull := false, maxStudents := 5 }]
    ∧ countInGroup stuC7x ("") = 1 := by
  decide

/-- C7 (amended for the empty group name): the groups endpoint returns
exactly one entry per configured group name in the configured order;
every entry carries the uniform configured capacity and a full flag
equal to count at-or-above capacity; an entry of a non-empty group name
carries the number of student records of that group, and an entry of
the empty name (absent from the derived mapping) defaults to zero. -/
theorem C7_groups_endpoint (cfg : Config) (students : List Student) :
    (apiGroups cfg students).map (fun gi => gi.name) = cfg.groupNames
    ∧ ∀ gi, gi ∈ apiGroups cfg students →
        gi.maxStudents = cfg.maxStudents
        ∧ gi.isFull = decide (cfg.maxStudents ≤ gi.count)
        ∧ (gi.name ≠ "" → gi.count = countInGroup students gi.name)
        ∧ (gi.name = "" → gi.count = 0) := by
  constructor
  · exact map_name_of_build _ (fun g => rfl) cfg.groupNames
  · intro gi hgi
    simp only [apiGroups, List.mem_map] at hgi
    obtain ⟨g, hgmem, hgeq⟩ := hgi
    subst hgeq
    refine ⟨rfl, rfl, ?_, ?_⟩
    · intro hne
      have hg2 : g ≠ "" := hne
      show lookupCount (getGroupCounts students) g = countInGroup students g
      rw [lookupCount_getGroupCounts]
      simp [hg2]
    · intro heq
      have hg2 : g = "" := heq
      show lookupCount (getGroupCounts students) g = 0
      rw [lookupCount_getGroupCounts]
      simp [hg2]

/-- C7 witness: one-seat capacity, two configured groups, one registrant
in the first: the instantiated conclusion holds, the first entry full at
count one, the second at zero. -/
theorem C7_groups_endpoint_witness :
    ((apiGroups cfgC7w stuC7w).map (fun gi => gi.name) = cfgC7w.groupNames
    ∧ ∀ gi, gi ∈ apiGroups cfgC7w stuC7w →
        gi.maxStudents = cfgC7w.maxStudents
        ∧ gi.isFull = decide (cfgC7w.maxStudents ≤ gi.count)
        ∧ (gi.name ≠ "" → gi.count = countInGroup stuC7w gi.name)
        ∧ (gi.name = "" → gi.count = 0)) :=
  C7_groups_endpoint cfgC7w stuC7w

/-- C10: a raw row whose group cell is missing or empty still appears as
a record of the student list, but the derived count mapping with it
equals the mapping without it, so it affects neither isGroupFull nor
the groups endpoint; and (last conjunct, at a concrete store) the sum of
all counts can be strictly below the number of records. -/
theorem C10_empty_group_rows_uncounted (cfg : Config) (header row : List String)
    (pre post : List (List String)) (g : String)
    (hrow : row.getD 4 ("") = "") :
    mkRecord row ∈ getAllStudents (header :: (pre ++ row :: post))
    ∧ getGroupCounts (getAllStudents (header :: (pre ++ row :: post)))
        = getGroupCounts (getAllStudents (header :: (pre ++ post)))
    ∧ isGroupFull cfg (getAllStudents (header :: (pre ++ row :: post))) g
        = isGroupFull cfg (getAllStudents (header :: (pre ++ post))) g
    ∧ apiGroups cfg (getAllStudents (header :: (pre ++ row :: post)))
        = apiGroups cfg (getAllStudents (header :: (pre ++ post)))
    ∧ sumCounts (getGroupCounts (getAllStudents
        [["Name", "Email", "Phone", "School", "Group"],
         ["N", "e@x.com", "0123456789", "S"]]))
      < (getAllStudents
        [["Name", "Email", "Phone", "School", "Group"],
         ["N", "e@x.com", "0123456789", "S"]]).length := by
  have hgrp : (mkRecord row).group = "" := hrow
  have hcnt : getGroupCounts (getAllStudents (header :: (pre ++ row :: post)))
      = getGroupCounts (getAllStudents (header :: (pre ++ post))) := by
    simp only [getAllStudents, List.drop_succ_cons, List.drop_zero, List.map_append,
      List.map_cons, getGroupCounts]
    rw [List.foldl_append, List.foldl_append, List.foldl_cons]
    simp [stepCount, hgrp]
  refine ⟨?_, hcnt, ?_, ?_, ?_⟩
  · simp [getAllStudents]
  · simp [isGroupFull, hcnt]
  · simp [apiGroups, hcnt]
  · decide

/-- C10 witness: a four-cell row (missing group cell) next to a normal
registrant row: the short row appears in the read sequence yet the two
stores derive identical count mappings. -/
theorem C10_empty_group_rows_uncounted_witness :
    mkRecord rowC10w ∈ getAllStudents (headerC10w :: ([] ++ rowC10w :: [rowC10full]))
    ∧ getGroupCounts (getAllStudents (headerC10w :: ([] ++ rowC10w :: [rowC10full])))
        = getGroupCounts (getAllStudents (headerC10w :: ([] ++ [rowC10full]))) :=
  ⟨(C10_empty_group_rows_uncounted cfgC2w headerC10w rowC10w [] [rowC10full]
      ("Group A") (by decide)).1,
   (C10_empty_group_rows_uncounted cfgC2w headerC10w rowC10w [] [rowC10full]
      ("Group A") (by decide)).2.1⟩

/-- C9 witness: a candidate whose email matches up to case and whose
phone matches up to dashes is reported as an email duplicate. -/
theorem C9_duplicate_reports_email_first_witness :
    checkDuplicate stuC9w ("a@B.com") ("0123456789") = some ("email") :=
  C9_duplicate_reports_email_first stuC9w ("a@B.com") ("0123456789")
    ⟨{ name := "Alice", email := "A@b.com", phone := "0123-456-789",
       school := "S1", group := "Group A" }, by decide, by decide⟩
